import Mathlib

/-!
Verification of the payslip batch pipeline (payslip_generator.py, config.py).

The embedding models:
  * spreadsheet cells (numeric, text, or null/NaN) and data frames;
  * the loader `read_employee_data` with its schema check and per-column
    numeric coercion;
  * the pure calculation `calculate_net_salary`;
  * the renderer `generate_payslip_with_design` as a function from a row
    dictionary to the displayed content plus the output path, with file
    writes modelled on an association-list file system;
  * the mailer, abstracted by a per-record delivery oracle;
  * the orchestrator `process_payroll` threading an explicit effect trace
    (files written, delivery attempts, success/failure counts).
-/

/-- Cell of a spreadsheet column: a numeric value, a text value, or a
null/NaN entry (blank cell, or the result of a failed coercion). -/
inductive Cell where
  | num (q : ℚ)
  | str (s : String)
  | nan
deriving DecidableEq, Repr, Inhabited

/-- A row converted to a dictionary (`row.to_dict()`): association list
from column name to cell. -/
abbrev Dict := List (String × Cell)

/-- Dictionary access `d[k]`; `none` models a Python `KeyError`. -/
def dictGet (d : Dict) (k : String) : Option Cell :=
  (d.find? (fun kv => kv.1 = k)).map (fun kv => kv.2)

/-- Parse a run of decimal digits; `none` when a non-digit occurs. -/
def parseDigits (cs : List Char) : Option Nat :=
  cs.foldl
    (fun acc c =>
      match acc with
      | none => none
      | some a => if c.isDigit then some (a * 10 + (c.toNat - 48)) else none)
    (some 0)

/-- Parse an unsigned decimal literal: digits, optionally split by one
point (`12`, `12.5`, `12.`, `.5`). -/
def parseNumAbs (body : List Char) : Option ℚ :=
  let w := body.takeWhile (fun c => !(c = '.'))
  match body.dropWhile (fun c => !(c = '.')) with
  | [] =>
      if w.isEmpty then none
      else (parseDigits w).map (fun n => (n : ℚ))
  | _ :: f =>
      if f.contains '.' then none
      else if w.isEmpty && f.isEmpty then none
      else
        match parseDigits w, parseDigits f with
        | some wn, some fn =>
            some ((wn : ℚ) + (fn : ℚ) / (10 : ℚ) ^ f.length)
        | _, _ => none

/-- Numeric parsing of a text cell, as `pd.to_numeric` accepts it:
surrounding blanks, an optional sign, digits, an optional fractional
part. -/
def parseNum (s : String) : Option ℚ :=
  let t :=
    ((s.toList.dropWhile (fun c => c = ' ')).reverse.dropWhile
      (fun c => c = ' ')).reverse
  match t with
  | '-' :: rest => (parseNumAbs rest).map (fun q => -q)
  | '+' :: rest => parseNumAbs rest
  | _ => parseNumAbs t

/-- One application of `pd.to_numeric(..., errors="coerce")` to a cell:
numbers and NaN pass through, text parses to a number or becomes NaN. -/
def coerceCell : Cell → Cell
  | .num q => .num q
  | .nan => .nan
  | .str s =>
      match parseNum s with
      | some q => .num q
      | none => .nan

/-- `pd.api.types.is_numeric_dtype`: a pandas column has numeric dtype
exactly when no entry is text (blank cells in a numeric column are NaN
floats and keep the dtype numeric). -/
def isNumericDtype (col : List Cell) : Bool :=
  col.all (fun c =>
    match c with
    | .str _ => false
    | _ => true)

/-- A data frame: the column names and the rows (each row listing its
cells in column order). -/
structure DataFrame where
  cols : List String
  rows : List (List Cell)
deriving DecidableEq, Repr

/-- The column of `df` named `name`; cells missing from short rows read
as NaN. -/
def getCol (df : DataFrame) (name : String) : List Cell :=
  match df.cols.findIdx? (fun c => c = name) with
  | none => []
  | some i => df.rows.map (fun r => r.getD i .nan)

/-- Replace the column named `name` by `cells` (row by row). -/
def setCol (df : DataFrame) (name : String) (cells : List Cell) : DataFrame :=
  match df.cols.findIdx? (fun c => c = name) with
  | none => df
  | some i =>
      { df with rows := (df.rows.zip cells).map (fun rc => rc.1.set i rc.2) }

def requiredColumns : List String :=
  ["Employee ID", "Name", "Email", "Basic Salary", "Allowances", "Deductions"]

def amountColumns : List String :=
  ["Basic Salary", "Allowances", "Deductions"]

/-- Errors of the loader: `SchemaError` (missing columns) and
`DataValidationError` (a column with invalid values), both raised as
`ValueError` in the source. -/
inductive LoadError where
  | schemaError (missing : List String)
  | dataValidationError (col : String) (count : Nat)
deriving DecidableEq, Repr

/-- The required columns absent from `df`. -/
def missingCols (df : DataFrame) : List String :=
  requiredColumns.filter (fun c => !(df.cols.contains c))

/-- The body of the per-amount-column loop of `read_employee_data`:
skip a column whose dtype is already numeric; otherwise coerce it,
count the null entries of the coerced column, and fail if any. -/
def validateCol (col : String) (df : DataFrame) : Except LoadError DataFrame :=
  if isNumericDtype (getCol df col) then .ok df
  else
    let coerced := (getCol df col).map coerceCell
    let nullValues := (coerced.filter (fun c => c = Cell.nan)).length
    if nullValues > 0 then .error (.dataValidationError col nullValues)
    else .ok (setCol df col coerced)

/-- `read_employee_data`: check the required columns, then validate the
three amount columns in order; any failure rejects the whole load. -/
def read_employee_data (df : DataFrame) : Except LoadError DataFrame :=
  if missingCols df = [] then
    amountColumns.foldlM (fun acc col => validateCol col acc) df
  else
    .error (.schemaError (missingCols df))

/-- Python `+` on two cell values: numeric addition with NaN
propagation; text concatenates with text; text with a number is a
`TypeError` (`none`). -/
def cellAdd : Cell → Cell → Option Cell
  | .num a, .num b => some (.num (a + b))
  | .num _, .nan => some .nan
  | .nan, .num _ => some .nan
  | .nan, .nan => some .nan
  | .str a, .str b => some (.str (a ++ b))
  | _, _ => none

/-- Python `-` on two cell values: numeric subtraction with NaN
propagation; any text operand is a `TypeError` (`none`). -/
def cellSub : Cell → Cell → Option Cell
  | .num a, .num b => some (.num (a - b))
  | .num _, .nan => some .nan
  | .nan, .num _ => some .nan
  | .nan, .nan => some .nan
  | _, _ => none

/-- `calculate_net_salary(row)`: `row["Basic Salary"] + row["Allowances"]
- row["Deductions"]`. -/
def calculate_net_salary (row : Dict) : Option Cell := do
  let b ← dictGet row "Basic Salary"
  let a ← dictGet row "Allowances"
  let d ← dictGet row "Deductions"
  let s ← cellAdd b a
  cellSub s d

/-- Insert a thousands separator after every third digit of a reversed
digit list. -/
def insertCommasRev : List Char → Nat → List Char
  | [], _ => []
  | [c], _ => [c]
  | c :: cs, n =>
      if n = 2 then c :: ',' :: insertCommasRev cs 0
      else c :: insertCommasRev cs (n + 1)

/-- A natural number printed with thousands separators. -/
def natCommas (n : Nat) : String :=
  String.mk ((insertCommasRev (toString n).toList.reverse 0).reverse)

/-- The magnitude of a rational rounded to a whole number of cents:
`⌊|q| * 100 + 1 / 2⌋`, written directly over numerator and denominator
(ties round up; the claims do not depend on tie behaviour). -/
def roundCents (q : ℚ) : Nat :=
  (200 * q.num.natAbs + q.den) / (2 * q.den)

/-- The format specifier `:,.2f`: thousands separators and two
decimals. -/
def formatFixed2 (q : ℚ) : String :=
  let cents := roundCents q
  let whole := cents / 100
  let frac := cents % 100
  (if q.num < 0 then "-" else "") ++ natCommas whole ++ "." ++
    (if frac < 10 then "0" else "") ++ toString frac

/-- The f-string `f"${value:,.2f}"` applied to a cell: NaN formats as
`$nan`; a text cell raises (`none`). -/
def formatAmtUSD : Cell → Option String
  | .num q => some ("$" ++ formatFixed2 q)
  | .nan => some "$nan"
  | .str _ => none

/-- Interpolation of a cell into an f-string. -/
def cellToStr : Cell → String
  | .num q => toString q
  | .str s => s
  | .nan => "nan"

/-- The displayed content of a payslip document: header title, employee
identity line, date line, recipient block, itemized table, footer. -/
structure RenderedContent where
  title : String
  employeeIdLine : String
  dateLine : String
  billedName : String
  billedEmail : String
  table : List (String × String)
  footer : String
deriving DecidableEq, Repr, Inhabited

/-- The canvas drawing of `generate_payslip_with_design`: every string
drawn on the page, in the source's layout. A missing dictionary key or
a text-valued amount raises (`none`). -/
def renderContentOf (employee_data : Dict) : Option RenderedContent := do
  let eid ← dictGet employee_data "Employee ID"
  let name ← dictGet employee_data "Name"
  let email ← dictGet employee_data "Email"
  let basicS ← formatAmtUSD (← dictGet employee_data "Basic Salary")
  let allowS ← formatAmtUSD (← dictGet employee_data "Allowances")
  let dedS ← formatAmtUSD (← dictGet employee_data "Deductions")
  let netS ← formatAmtUSD (← dictGet employee_data "Net Salary")
  pure
    { title := "TINPROTA Hardware"
      employeeIdLine := "Employee ID : " ++ cellToStr eid
      dateLine := "Date: April 10, 2025"
      billedName := cellToStr name
      billedEmail := "Email: " ++ cellToStr email
      table :=
        [("DESCRIPTION", "AMOUNT (USD)"),
         ("Basic Salary", basicS),
         ("Allowances", allowS),
         ("Deductions", dedS),
         ("Net Salary", netS)]
      footer := "THANK YOU FOR YOUR HARDWORK!" }

/-- `generate_payslip_with_design`: the output path is
`<output_dir>/<Employee ID>.pdf`; the document is saved only after every
drawing step succeeded, so a raised error leaves no file. -/
def generate_payslip_with_design (employee_data : Dict) (output_dir : String) :
    Option (String × RenderedContent) :=
  match dictGet employee_data "Employee ID" with
  | none => none
  | some eid =>
      let full_path := output_dir ++ "/" ++ cellToStr eid ++ ".pdf"
      match renderContentOf employee_data with
      | none => none
      | some content => some (full_path, content)

/-- The output directory as a map from path to document content. -/
abbrev Fs := List (String × RenderedContent)

/-- Write a document, overwriting any file of the same name. -/
def writeFile (fs : Fs) (p : String) (c : RenderedContent) : Fs :=
  (p, c) :: fs.filter (fun e => e.1 ≠ p)

/-- Read a document back from the directory. -/
def lookupFile (fs : Fs) (p : String) : Option RenderedContent :=
  (fs.find? (fun e => e.1 = p)).map (fun e => e.2)

/-- The process environment: set variables with their values. -/
abbrev Env := List (String × String)

/-- `os.getenv`. -/
def getenv (env : Env) (v : String) : Option String :=
  (env.find? (fun kv => kv.1 = v)).map (fun kv => kv.2)

/-- The variables `setup_environment` requires. -/
def requiredVars : List String :=
  ["SMTP_SERVER", "SMTP_PORT", "SENDER_EMAIL", "EMAIL_PASSWORD"]

/-- `setup_environment`: collect the unset required variables and raise
(listing them) when any is missing. -/
def setup_environment (env : Env) : Except (List String) Unit :=
  let missing_vars := requiredVars.filter (fun v => (getenv env v).isNone)
  if missing_vars = [] then .ok () else .error missing_vars

/-- `Config.SMTP_HOST` from config.py: environment override with the
documented default. -/
def Config.SMTP_HOST (env : Env) : String :=
  (getenv env "SMTP_HOST").getD "smtp.gmail.com"

/-- `Config.SMTP_PORT` from config.py: environment override with the
documented default, parsed by `int` (`none` models the raise on a
non-numeric value). -/
def Config.SMTP_PORT (env : Env) : Option Nat :=
  parseDigits ((getenv env "SMTP_PORT").getD "587").toList

/-- The observable trace of one batch run: the output directory, how
many records reached the renderer, how many reached the mailer, and the
summary counts the run logs at the end. -/
structure RunState where
  fs : Fs
  renderAttempts : Nat
  deliveryAttempts : Nat
  successes : Nat
  failures : Nat
deriving DecidableEq, Repr

/-- `row.to_dict()`: the row paired with the column names. -/
def rowDict (cols : List String) (row : List Cell) : Dict := cols.zip row

/-- The body of the per-record loop of `process_payroll`: render (the
file is written only when rendering succeeds), then deliver; any raise
inside the body is caught and counted as one failure. `deliverOk` is
the oracle for the outcome of the SMTP delivery of one record. -/
def processRecord (deliverOk : Dict → Bool) (output_dir : String)
    (cols : List String) (st : RunState) (row : List Cell) : RunState :=
  let employee_data := rowDict cols row
  let st := { st with renderAttempts := st.renderAttempts + 1 }
  match generate_payslip_with_design employee_data output_dir with
  | none => { st with failures := st.failures + 1 }
  | some pc =>
      let st := { st with fs := writeFile st.fs pc.1 pc.2,
                          deliveryAttempts := st.deliveryAttempts + 1 }
      if deliverOk employee_data then { st with successes := st.successes + 1 }
      else { st with failures := st.failures + 1 }

/-- The fatal outcomes of a run: `ConfigError` or a load failure. -/
inductive FatalError where
  | configError (missingVars : List String)
  | loadError (e : LoadError)
deriving DecidableEq, Repr

/-- The trace before any record is processed. -/
def initialState (fs0 : Fs) : RunState :=
  { fs := fs0, renderAttempts := 0, deliveryAttempts := 0,
    successes := 0, failures := 0 }

/-- `process_payroll`: verify the environment, load the records, then
process every row in order; a fatal error surfaces with the trace
untouched, otherwise the final trace carries the summary counts. -/
def process_payroll (env : Env) (deliverOk : Dict → Bool) (df : DataFrame)
    (output_dir : String) (fs0 : Fs) : RunState × Option FatalError :=
  match setup_environment env with
  | .error missing_vars => (initialState fs0, some (.configError missing_vars))
  | .ok _ =>
      match read_employee_data df with
      | .error e => (initialState fs0, some (.loadError e))
      | .ok df2 =>
          (df2.rows.foldl (processRecord deliverOk output_dir df2.cols)
            (initialState fs0), none)

/-- Whether one record's render-then-deliver pipeline succeeds; a
function of that record alone. -/
def recordSucceeds (deliverOk : Dict → Bool) (output_dir : String)
    (cols : List String) (row : List Cell) : Bool :=
  match generate_payslip_with_design (rowDict cols row) output_dir with
  | none => false
  | some _ => deliverOk (rowDict cols row)

/-- Following the spec's words for claim C3: a cell "fails numeric
coercion" when it is a text value that does not parse as a number (a
blank/NaN cell does not fail — coercion preserves it). -/
def failsCoercion : Cell → Bool
  | .str s => (parseNum s).isNone
  | _ => false

/-- Following the spec's words for claim C3: the number N of values of
a column that fail numeric coercion. -/
def coercionFailures (df : DataFrame) (col : String) : Nat :=
  ((getCol df col).filter failsCoercion).length

/-- The number of null/blank entries a column holds before coercion. -/
def preexistingBlanks (df : DataFrame) (col : String) : Nat :=
  ((getCol df col).filter (fun c => c = Cell.nan)).length

/-- The quantity the loader reports: the number of null entries of a
column after coercion (`df[df[col].isnull()].shape[0]`). -/
def nullsAfterCoercion (df : DataFrame) (col : String) : Nat :=
  (((getCol df col).map coerceCell).filter (fun c => c = Cell.nan)).length

/-- Decidable equality on `Except`, for evaluating the loader and the
orchestrator at concrete inputs. -/
instance exceptDecEq {ε α : Type} [DecidableEq ε] [DecidableEq α] :
    DecidableEq (Except ε α) := fun x y =>
  match x, y with
  | .ok a, .ok b =>
      match decEq a b with
      | isTrue h => isTrue (h ▸ rfl)
      | isFalse h => isFalse (fun hh => h (Except.ok.inj hh))
  | .error e, .error f =>
      match decEq e f with
      | isTrue h => isTrue (h ▸ rfl)
      | isFalse h => isFalse (fun hh => h (Except.error.inj hh))
  | .ok _, .error _ => isFalse (fun hh => Except.noConfusion hh)
  | .error _, .ok _ => isFalse (fun hh => Except.noConfusion hh)

/-- A row dictionary carrying exactly the six required fields. -/
def dC1 : Dict :=
  [("Employee ID", .str "EMP1"), ("Name", .str "Alice"),
   ("Email", .str "alice@example.com"), ("Basic Salary", .num 1000),
   ("Allowances", .num 200), ("Deductions", .num 100)]

/-- The same row with an input `Net Salary` column whose value 999
differs from the derived 1000 + 200 - 100 = 1100. -/
def dC1net : Dict := dC1 ++ [("Net Salary", .num 999)]

/-- Concrete row for the claim C2 witness. -/
def dC2 : Dict :=
  [("Employee ID", .str "EMP2"), ("Basic Salary", .num 2500),
   ("Allowances", .num 150), ("Deductions", .num 75)]

/-- Counterexample frame for claim C3: the `Basic Salary` column holds
one unparseable text value and one blank (NaN) cell. -/
def dfC3 : DataFrame :=
  { cols := requiredColumns,
    rows :=
      [[.str "E1", .str "A", .str "a@x.com", .str "abc", .num 1, .num 2],
       [.str "E2", .str "B", .str "b@x.com", .nan, .num 3, .num 4]] }

/-- Witness frame for the amended claim C3: one unparseable text value
and no blank cells in `Basic Salary`. -/
def dfC3w : DataFrame :=
  { cols := requiredColumns,
    rows :=
      [[.str "E1", .str "A", .str "a@x.com", .str "abc", .num 1, .num 2],
       [.str "E2", .str "B", .str "b@x.com", .num 9, .num 3, .num 4]] }

/-- Witness frame for claim C4: the `Allowances` column is absent. -/
def dfC4 : DataFrame :=
  { cols := ["Employee ID", "Name", "Email", "Basic Salary", "Deductions"],
    rows := [[.str "E1", .str "A", .str "a@x.com", .num 1, .num 2]] }

/-- An environment with all four required variables set. -/
def envAll : Env :=
  [("SMTP_SERVER", "smtp.gmail.com"), ("SMTP_PORT", "587"),
   ("SENDER_EMAIL", "payroll@tinprota.example"), ("EMAIL_PASSWORD", "secret")]

/-- Witness frame for claim C5: the sheet also carries a `Net Salary`
column, so rendering succeeds and the two rows differ only in whether
delivery can succeed (the second row's email cell is blank). -/
def dfC5 : DataFrame :=
  { cols := requiredColumns ++ ["Net Salary"],
    rows :=
      [[.str "E1", .str "A", .str "a@x.com", .num 1000, .num 200, .num 100,
        .num 1100],
       [.str "E2", .str "B", .nan, .num 2000, .num 0, .num 50, .num 1950]] }

/-- Delivery oracle for the claim C5 witness: delivery succeeds exactly
when the record's email cell is a text address. -/
def deliverOkC5 : Dict → Bool := fun d =>
  match dictGet d "Email" with
  | some (.str _) => true
  | _ => false

/-- The end-to-end input of claim C6: four rows with the six required
columns, the second row's email cell blank. -/
def dfC6 : DataFrame :=
  { cols := requiredColumns,
    rows :=
      [[.str "E1", .str "A", .str "a@x.com", .num 1000, .num 200, .num 100],
       [.str "E2", .str "B", .nan, .num 2000, .num 0, .num 50],
       [.str "E3", .str "C", .str "c@x.com", .num 1500, .num 100, .num 0],
       [.str "E4", .str "D", .str "d@x.com", .num 1200, .num 50, .num 25]] }

/-- Row dictionary for the claim C9 witness. -/
def dC9 : Dict :=
  [("Employee ID", .str "E9"), ("Name", .str "Ida"),
   ("Email", .str "ida@x.com"), ("Basic Salary", .num 1000),
   ("Allowances", .num 200), ("Deductions", .num 100),
   ("Net Salary", .num 1100)]

/-- The content the renderer displays for `dC9`. -/
def contentC9 : RenderedContent :=
  { title := "TINPROTA Hardware"
    employeeIdLine := "Employee ID : E9"
    dateLine := "Date: April 10, 2025"
    billedName := "Ida"
    billedEmail := "Email: ida@x.com"
    table :=
      [("DESCRIPTION", "AMOUNT (USD)"),
       ("Basic Salary", "$1,000.00"),
       ("Allowances", "$200.00"),
       ("Deductions", "$100.00"),
       ("Net Salary", "$1,100.00")]
    footer := "THANK YOU FOR YOUR HARDWORK!" }

/-- Witness frame for claim C10: the `Basic Salary` column has numeric
dtype but holds a blank (NaN) cell. -/
def dfC10 : DataFrame :=
  { cols := requiredColumns,
    rows :=
      [[.str "E1", .str "A", .str "a@x.com", .nan, .num 1, .num 2],
       [.str "E2", .str "B", .str "b@x.com", .num 5, .num 3, .num 4]] }

lemma except_ok_bind {ε α β : Type} (a : α) (f : α → Except ε β) :
    (Except.ok a >>= f) = f a := rfl

lemma except_error_bind {ε α β : Type} (e : ε) (f : α → Except ε β) :
    (Except.error e >>= f : Except ε β) = Except.error e := rfl

lemma filter_length_split {α : Type} (p : α → Bool) (l : List α) :
    (l.filter p).length + (l.filter (fun a => !(p a))).length = l.length := by
  induction l with
  | nil => rfl
  | cons a l ih =>
      cases h : p a <;> simp [List.filter_cons, h] <;> omega

lemma writeFile_writeFile (fs : Fs) (p : String) (c : RenderedContent) :
    writeFile (writeFile fs p c) p c = writeFile fs p c := by
  unfold writeFile
  simp [List.filter_filter]

lemma lookupFile_writeFile (fs : Fs) (p : String) (c : RenderedContent) :
    lookupFile (writeFile fs p c) p = some c := by
  simp [lookupFile, writeFile, List.find?]

lemma coerce_null_count_eq_failures (cells : List Cell)
    (h : ∀ c ∈ cells, c ≠ Cell.nan) :
    ((cells.map coerceCell).filter (fun c => c = Cell.nan)).length =
      (cells.filter failsCoercion).length := by
  induction cells with
  | nil => rfl
  | cons c cs ih =>
      have hc : c ≠ Cell.nan := h c (List.mem_cons_self c cs)
      have ihh := ih (fun x hx => h x (List.mem_cons_of_mem c hx))
      cases c with
      | num q => simp [coerceCell, failsCoercion, List.filter_cons, ihh]
      | nan => exact absurd rfl hc
      | str s =>
          cases hp : parseNum s with
          | none =>
              simp [coerceCell, failsCoercion, hp, List.filter_cons, ihh]
          | some q =>
              simp [coerceCell, failsCoercion, hp, List.filter_cons, ihh]

lemma validateCol_numeric (col : String) (df : DataFrame)
    (h : isNumericDtype (getCol df col) = true) :
    validateCol col df = .ok df := by
  unfold validateCol
  rw [if_pos h]

lemma validateCol_fails (col : String) (df : DataFrame)
    (hnn : isNumericDtype (getCol df col) = false)
    (hnonan : ∀ c ∈ getCol df col, c ≠ Cell.nan)
    (hpos : 0 < coercionFailures df col) :
    validateCol col df =
      .error (.dataValidationError col (coercionFailures df col)) := by
  unfold validateCol
  rw [hnn]
  simp only [Bool.false_eq_true, if_false]
  rw [coerce_null_count_eq_failures (getCol df col) hnonan]
  have hpos2 : (List.filter failsCoercion (getCol df col)).length > 0 := by
    simpa [coercionFailures] using hpos
  rw [if_pos hpos2]
  simp [coercionFailures]

lemma processRecord_counts (deliverOk : Dict → Bool) (output_dir : String)
    (cols : List String) (st : RunState) (row : List Cell) :
    (processRecord deliverOk output_dir cols st row).successes =
      st.successes + (if recordSucceeds deliverOk output_dir cols row then 1 else 0) ∧
    (processRecord deliverOk output_dir cols st row).failures =
      st.failures + (if recordSucceeds deliverOk output_dir cols row then 0 else 1) ∧
    (processRecord deliverOk output_dir cols st row).renderAttempts =
      st.renderAttempts + 1 := by
  unfold processRecord recordSucceeds
  cases hg : generate_payslip_with_design (rowDict cols row) output_dir with
  | none => simp [hg]
  | some pc => cases hd : deliverOk (rowDict cols row) <;> simp [hg, hd]

lemma foldl_processRecord_counts (deliverOk : Dict → Bool) (output_dir : String)
    (cols : List String) (rows : List (List Cell)) (st : RunState) :
    (rows.foldl (processRecord deliverOk output_dir cols) st).successes =
      st.successes +
        (rows.filter (fun r => recordSucceeds deliverOk output_dir cols r)).length ∧
    (rows.foldl (processRecord deliverOk output_dir cols) st).failures =
      st.failures +
        (rows.filter (fun r => !(recordSucceeds deliverOk output_dir cols r))).length ∧
    (rows.foldl (processRecord deliverOk output_dir cols) st).renderAttempts =
      st.renderAttempts + rows.length := by
  induction rows generalizing st with
  | nil => simp
  | cons r rs ih =>
      obtain ⟨h1, h2, h3⟩ := processRecord_counts deliverOk output_dir cols st r
      obtain ⟨i1, i2, i3⟩ := ih (processRecord deliverOk output_dir cols st r)
      rw [List.foldl_cons]
      refine ⟨?_, ?_, ?_⟩
      · rw [i1, h1]
        cases hs : recordSucceeds deliverOk output_dir cols r <;>
          simp [List.filter_cons, hs]; omega
      · rw [i2, h2]
        cases hs : recordSucceeds deliverOk output_dir cols r <;>
          simp [List.filter_cons, hs]; omega
      · rw [i3, h3]
        simp [List.length_cons]
        omega

/-- The loader on a frame with all required columns: the three amount
columns are validated in their fixed order. -/
lemma read_employee_data_chain (df : DataFrame) (hm : missingCols df = []) :
    read_employee_data df =
      (validateCol "Basic Salary" df >>= fun df1 =>
        validateCol "Allowances" df1 >>= fun df2 =>
          validateCol "Deductions" df2) := by
  unfold read_employee_data
  rw [if_pos hm]
  simp [amountColumns, List.foldlM_cons, List.foldlM_nil]


/-- Setting an index leaves every other index of a row unchanged. -/
lemma set_getD_ne (l : List Cell) (x d : Cell) : ∀ (i j : Nat), i ≠ j →
    (l.set i x).getD j d = l.getD j d := by
  induction l with
  | nil => intro i j h; rfl
  | cons a l ih =>
      intro i j h
      cases i with
      | zero =>
          cases j with
          | zero => exact absurd rfl h
          | succ j => rfl
      | succ i =>
          cases j with
          | zero => rfl
          | succ j =>
              show (l.set i x).getD j d = l.getD j d
              exact ih i j (by omega)

/-- The index found for a name points at that name. -/
lemma findIdx?_eq_pred (c : String) : ∀ (l : List String) (i : Nat),
    List.findIdx? (fun x => x = c) l = some i → l.get? i = some c := by
  intro l
  induction l with
  | nil => intro i h; simp [List.findIdx?] at h
  | cons a l ih =>
      intro i h
      rw [List.findIdx?_cons] at h
      by_cases hp : a = c
      · rw [if_pos (by simpa using hp)] at h
        obtain rfl : (0 : Nat) = i := by simpa using h
        simpa using hp
      · rw [if_neg (by simpa using hp)] at h
        simp at h
        obtain ⟨k, hk, hki⟩ := h
        subst hki
        simpa using ih k hk

/-- Replacing column i cell by cell leaves the projection onto a
different column j untouched. -/
lemma map_getD_zip_set (i j : Nat) (hij : i ≠ j) :
    ∀ (rows : List (List Cell)) (cells : List Cell),
    cells.length = rows.length →
    ((rows.zip cells).map (fun rc => rc.1.set i rc.2)).map
        (fun r => r.getD j Cell.nan) =
      rows.map (fun r => r.getD j Cell.nan) := by
  intro rows
  induction rows with
  | nil => intro cells h; simp
  | cons r rs ih =>
      intro cells h
      cases cells with
      | nil => simp at h
      | cons c cs =>
          simp only [List.zip_cons_cons, List.map_cons]
          rw [ih cs (by simpa using h)]
          rw [set_getD_ne r c Cell.nan i j hij]

/-- A present column has one cell per row. -/
lemma getCol_length (df : DataFrame) (c : String) (i : Nat)
    (h : df.cols.findIdx? (fun x => x = c) = some i) :
    (getCol df c).length = df.rows.length := by
  unfold getCol
  rw [h]
  simp

/-- Coercing one column in place does not change any other column. -/
lemma getCol_setCol_coerce_ne (df : DataFrame) (c cq : String) (hne : c ≠ cq) :
    getCol (setCol df c ((getCol df c).map coerceCell)) cq = getCol df cq := by
  unfold setCol
  cases hic : df.cols.findIdx? (fun x => x = c) with
  | none => rfl
  | some i =>
      show getCol
        { cols := df.cols,
          rows := (df.rows.zip ((getCol df c).map coerceCell)).map
            (fun rc => rc.1.set i rc.2) } cq = getCol df cq
      unfold getCol
      cases hjc : df.cols.findIdx? (fun x => x = cq) with
      | none => rfl
      | some j =>
          have hi := findIdx?_eq_pred c df.cols i hic
          have hj := findIdx?_eq_pred cq df.cols j hjc
          have hij : i ≠ j := by
            intro hh
            rw [hh, hj] at hi
            exact hne (by simpa using hi.symm)
          show ((df.rows.zip ((getCol df c).map coerceCell)).map
              (fun rc => rc.1.set i rc.2)).map (fun r => r.getD j Cell.nan) =
            df.rows.map (fun r => r.getD j Cell.nan)
          apply map_getD_zip_set i j hij
          rw [List.length_map, getCol_length df c i hic]

/-- The null entries of a coerced column are its values failing
coercion plus its pre-existing null entries. -/
lemma nulls_split_cells (cells : List Cell) :
    ((cells.map coerceCell).filter (fun c => c = Cell.nan)).length =
      (cells.filter failsCoercion).length +
        (cells.filter (fun c => c = Cell.nan)).length := by
  induction cells with
  | nil => rfl
  | cons c cs ih =>
      cases c with
      | num q => simpa [coerceCell, failsCoercion, List.filter_cons] using ih
      | nan =>
          simp only [List.map_cons, coerceCell, List.filter_cons]
          simp [failsCoercion, ih]
          omega
      | str s =>
          cases hp : parseNum s with
          | none =>
              simp only [List.map_cons, coerceCell, hp, List.filter_cons]
              simp [failsCoercion, hp, ih]
              omega
          | some q =>
              simp only [List.map_cons, coerceCell, hp, List.filter_cons]
              simpa [failsCoercion, hp] using ih

/-- The reported null count of a column splits into coercion failures
plus pre-existing blanks. -/
lemma nullsAfter_split (df : DataFrame) (c : String) :
    nullsAfterCoercion df c = coercionFailures df c + preexistingBlanks df c :=
  nulls_split_cells (getCol df c)

/-- A numeric-dtype column holds no text, hence no coercion failure. -/
lemma numericDtype_no_failures : ∀ (cells : List Cell),
    isNumericDtype cells = true → (cells.filter failsCoercion).length = 0 := by
  intro cells
  induction cells with
  | nil => intro h; rfl
  | cons c cs ih =>
      intro h
      simp only [isNumericDtype, List.all_cons, Bool.and_eq_true] at h
      have h2 : (cs.filter failsCoercion).length = 0 :=
        ih (by simpa [isNumericDtype] using h.2)
      cases c with
      | num q => simpa [List.filter_cons, failsCoercion] using h2
      | nan => simpa [List.filter_cons, failsCoercion] using h2
      | str s => exact absurd h.1 (by simp)

/-- A column with a coercion failure holds text, so its dtype is not
numeric. -/
lemma failures_pos_dtype_false (cells : List Cell)
    (h : 0 < (cells.filter failsCoercion).length) :
    isNumericDtype cells = false := by
  by_contra hh
  have h2 := numericDtype_no_failures cells (by simpa using hh)
  omega

/-- The reported null count depends only on the column's cells. -/
lemma nullsAfter_congr {df1 df2 : DataFrame} {c : String}
    (h : getCol df1 c = getCol df2 c) :
    nullsAfterCoercion df1 c = nullsAfterCoercion df2 c := by
  unfold nullsAfterCoercion
  rw [h]

/-- The failure count depends only on the column's cells. -/
lemma coercionFailures_congr {df1 df2 : DataFrame} {c : String}
    (h : getCol df1 c = getCol df2 c) :
    coercionFailures df1 c = coercionFailures df2 c := by
  unfold coercionFailures
  rw [h]

/-- A non-numeric column with null entries after coercion is rejected
with that column's name and its null count. -/
lemma validateCol_error_nulls (col : String) (df : DataFrame)
    (hnn : isNumericDtype (getCol df col) = false)
    (hpos : 0 < nullsAfterCoercion df col) :
    validateCol col df =
      .error (.dataValidationError col (nullsAfterCoercion df col)) := by
  have hpos2 : ((((getCol df col).map coerceCell).filter
      (fun c => c = Cell.nan)).length > 0) := by
    simpa [nullsAfterCoercion] using hpos
  unfold validateCol
  rw [hnn]
  simp only [Bool.false_eq_true, if_false]
  rw [if_pos hpos2]
  simp [nullsAfterCoercion]

/-- A non-numeric column with no null entries after coercion is
replaced in place by its coerced cells. -/
lemma validateCol_ok_coerced (col : String) (df : DataFrame)
    (hnn : isNumericDtype (getCol df col) = false)
    (hz : nullsAfterCoercion df col = 0) :
    validateCol col df =
      .ok (setCol df col ((getCol df col).map coerceCell)) := by
  have hz2 : ¬ ((((getCol df col).map coerceCell).filter
      (fun c => c = Cell.nan)).length > 0) := by
    simp only [nullsAfterCoercion] at hz
    omega
  unfold validateCol
  rw [hnn]
  simp only [Bool.false_eq_true, if_false]
  rw [if_neg hz2]

/-- Last stage of the loader walk: with the first two amount columns
free of failures, a failing trigger must sit in Deductions, which is
rejected with its null count. -/
lemma c3_tail2 (df df2 : DataFrame) (c0 : String)
    (hread : read_employee_data df = validateCol "Deductions" df2)
    (hD : getCol df2 "Deductions" = getCol df "Deductions")
    (hfB : coercionFailures df "Basic Salary" = 0)
    (hfA : coercionFailures df "Allowances" = 0)
    (hc0 : c0 ∈ amountColumns) (hpos0 : 0 < coercionFailures df c0) :
    ∃ c ∈ amountColumns,
      isNumericDtype (getCol df c) = false ∧
      0 < nullsAfterCoercion df c ∧
      nullsAfterCoercion df c =
        coercionFailures df c + preexistingBlanks df c ∧
      read_employee_data df =
        .error (.dataValidationError c (nullsAfterCoercion df c)) := by
  have hfD : 0 < coercionFailures df "Deductions" := by
    simp only [amountColumns, List.mem_cons, List.mem_singleton,
      List.not_mem_nil, or_false] at hc0
    rcases hc0 with rfl | rfl | rfl <;> omega
  have hdf : isNumericDtype (getCol df "Deductions") = false :=
    failures_pos_dtype_false (getCol df "Deductions") hfD
  have hnD : 0 < nullsAfterCoercion df "Deductions" := by
    have hsplit := nullsAfter_split df "Deductions"
    omega
  have hdf2 : isNumericDtype (getCol df2 "Deductions") = false := by
    rw [hD]
    exact hdf
  have hnD2 : 0 < nullsAfterCoercion df2 "Deductions" := by
    rw [nullsAfter_congr hD]
    exact hnD
  refine ⟨"Deductions", by decide, hdf, hnD, nullsAfter_split df _, ?_⟩
  rw [hread, validateCol_error_nulls "Deductions" df2 hdf2 hnD2,
    nullsAfter_congr hD]

/-- Middle stage of the loader walk: with Basic Salary free of
failures, Allowances is either rejected with its null count or passed
through, leaving Deductions intact. -/
lemma c3_tail1 (df df1 : DataFrame) (c0 : String)
    (hread : read_employee_data df =
      (validateCol "Allowances" df1 >>= fun y => validateCol "Deductions" y))
    (hA1 : getCol df1 "Allowances" = getCol df "Allowances")
    (hD1 : getCol df1 "Deductions" = getCol df "Deductions")
    (hfB : coercionFailures df "Basic Salary" = 0)
    (hc0 : c0 ∈ amountColumns) (hpos0 : 0 < coercionFailures df c0) :
    ∃ c ∈ amountColumns,
      isNumericDtype (getCol df c) = false ∧
      0 < nullsAfterCoercion df c ∧
      nullsAfterCoercion df c =
        coercionFailures df c + preexistingBlanks df c ∧
      read_employee_data df =
        .error (.dataValidationError c (nullsAfterCoercion df c)) := by
  by_cases ha1 : isNumericDtype (getCol df1 "Allowances") = true
  · have hfA : coercionFailures df "Allowances" = 0 := by
      rw [← coercionFailures_congr hA1]
      exact numericDtype_no_failures (getCol df1 "Allowances") ha1
    apply c3_tail2 df df1 c0 ?_ hD1 hfB hfA hc0 hpos0
    rw [hread, validateCol_numeric "Allowances" df1 ha1]
    rfl
  · have haf : isNumericDtype (getCol df1 "Allowances") = false := by
      simpa using ha1
    by_cases han : 0 < nullsAfterCoercion df1 "Allowances"
    · have hafd : isNumericDtype (getCol df "Allowances") = false := by
        rw [← hA1]
        exact haf
      have hand : 0 < nullsAfterCoercion df "Allowances" := by
        rw [← nullsAfter_congr hA1]
        exact han
      refine ⟨"Allowances", by decide, hafd, hand, nullsAfter_split df _, ?_⟩
      rw [hread, validateCol_error_nulls "Allowances" df1 haf han,
        except_error_bind, nullsAfter_congr hA1]
    · have haz : nullsAfterCoercion df1 "Allowances" = 0 := by omega
      have hvA := validateCol_ok_coerced "Allowances" df1 haf haz
      have hfA : coercionFailures df "Allowances" = 0 := by
        rw [← coercionFailures_congr hA1]
        have hsplit := nullsAfter_split df1 "Allowances"
        omega
      apply c3_tail2 df
        (setCol df1 "Allowances" ((getCol df1 "Allowances").map coerceCell))
        c0 ?_ ?_ hfB hfA hc0 hpos0
      · rw [hread, hvA]
        rfl
      · rw [getCol_setCol_coerce_ne df1 "Allowances" "Deductions" (by decide),
          hD1]

/-- Claim C1: the claim says the rendered Net Salary is derived as
basic_salary + allowances - deductions and never taken from the input.
The code contradicts it: on a row carrying only the six required fields
the renderer raises a `KeyError` on the absent `Net Salary` key (first
conjunct), while `calculate_net_salary` would have derived
1000 + 200 - 100 = 1100 (second and third conjuncts); on a row whose
input `Net Salary` column holds 999 the pipeline renders $999.00
verbatim (fourth conjunct) although 999 ≠ 1100 (fifth conjunct). The
pipeline never calls `calculate_net_salary`. -/
theorem C1_net_salary_read_from_input :
    generate_payslip_with_design dC1 "payslips" = none ∧
    calculate_net_salary dC1 = some (.num (1000 + 200 - 100)) ∧
    (1000 + 200 - 100 : ℚ) = 1100 ∧
    (generate_payslip_with_design dC1net "payslips").map (fun pc => pc.2.table) =
      some [("DESCRIPTION", "AMOUNT (USD)"),
            ("Basic Salary", "$1,000.00"),
            ("Allowances", "$200.00"),
            ("Deductions", "$100.00"),
            ("Net Salary", "$999.00")] ∧
    (999 : ℚ) ≠ 1100 := by
  refine ⟨by decide, by rfl, by norm_num, by decide, by decide⟩

/-- Claim C2: for every row whose three amount fields hold numeric
values b, a, d, `calculate_net_salary` returns exactly b + a - d, with
no rounding in the computation. -/
theorem C2_calculate_net_salary_exact (row : Dict) (b a d : ℚ)
    (hb : dictGet row "Basic Salary" = some (.num b))
    (ha : dictGet row "Allowances" = some (.num a))
    (hd : dictGet row "Deductions" = some (.num d)) :
    calculate_net_salary row = some (.num (b + a - d)) := by
  simp [calculate_net_salary, hb, ha, hd, cellAdd, cellSub]

/-- Witness for claim C2 at a concrete row. -/
theorem C2_witness :
    calculate_net_salary dC2 = some (.num (2500 + 150 - 75)) :=
  C2_calculate_net_salary_exact dC2 2500 150 75 (by rfl) (by rfl) (by rfl)

/-- Counterexample to claim C3 as stated: in `dfC3` the `Basic Salary`
column holds one value failing numeric coercion (`"abc"`) and one
pre-existing blank, so N = 1, yet the load reports count 2 — the number
of null entries after coercion, not the number of coercion failures. -/
theorem C3_counterexample :
    read_employee_data dfC3 =
      .error (.dataValidationError "Basic Salary" 2) ∧
    coercionFailures dfC3 "Basic Salary" = 1 := by
  exact ⟨by decide, by decide⟩

/-- Claim C3 (amended): for every frame with all required columns in
which some amount column has values failing numeric coercion, the whole
load is rejected — no rows are returned — with a `DataValidationError`
reporting an amount column of non-numeric dtype and, as its count, the
number of null entries that column holds after coercion: its own
failing values plus its pre-existing null/blank entries (so exactly N
when the reported column is the failing one and holds no blanks). No
assumption is made on blanks or on how many columns fail. -/
theorem C3_amended_reported_count (df : DataFrame)
    (hm : missingCols df = [])
    (htrig : ∃ c ∈ amountColumns, 0 < coercionFailures df c) :
    ∃ c ∈ amountColumns,
      isNumericDtype (getCol df c) = false ∧
      0 < nullsAfterCoercion df c ∧
      nullsAfterCoercion df c =
        coercionFailures df c + preexistingBlanks df c ∧
      read_employee_data df =
        .error (.dataValidationError c (nullsAfterCoercion df c)) := by
  obtain ⟨c0, hc0, hpos0⟩ := htrig
  have hchain := read_employee_data_chain df hm
  by_cases hb1 : isNumericDtype (getCol df "Basic Salary") = true
  · have hfB : coercionFailures df "Basic Salary" = 0 :=
      numericDtype_no_failures (getCol df "Basic Salary") hb1
    apply c3_tail1 df df c0 ?_ rfl rfl hfB hc0 hpos0
    rw [hchain, validateCol_numeric "Basic Salary" df hb1]
    rfl
  · have hbf : isNumericDtype (getCol df "Basic Salary") = false := by
      simpa using hb1
    by_cases hbn : 0 < nullsAfterCoercion df "Basic Salary"
    · refine ⟨"Basic Salary", by decide, hbf, hbn, nullsAfter_split df _, ?_⟩
      rw [hchain, validateCol_error_nulls "Basic Salary" df hbf hbn]
      rfl
    · have hbz : nullsAfterCoercion df "Basic Salary" = 0 := by omega
      have hvB := validateCol_ok_coerced "Basic Salary" df hbf hbz
      have hfB : coercionFailures df "Basic Salary" = 0 := by
        have hsplit := nullsAfter_split df "Basic Salary"
        omega
      apply c3_tail1 df
        (setCol df "Basic Salary" ((getCol df "Basic Salary").map coerceCell))
        c0 ?_ ?_ ?_ hfB hc0 hpos0
      · rw [hchain, hvB]
        rfl
      · exact getCol_setCol_coerce_ne df "Basic Salary" "Allowances" (by decide)
      · exact getCol_setCol_coerce_ne df "Basic Salary" "Deductions" (by decide)

/-- Witness for the amended claim C3: at a frame whose `Basic Salary`
column holds one unparseable value and no blanks, the amended theorem
pins the reported column and yields count 1 = N. -/
theorem C3_witness :
    read_employee_data dfC3w =
      .error (.dataValidationError "Basic Salary" 1) ∧
    coercionFailures dfC3w "Basic Salary" = 1 ∧
    preexistingBlanks dfC3w "Basic Salary" = 0 := by
  obtain ⟨c, hc, hdt, hpos, hsplit, hread⟩ :=
    C3_amended_reported_count dfC3w (by decide) (by decide)
  refine ⟨?_, by decide, by decide⟩
  have hcbs : c = "Basic Salary" := by
    simp only [amountColumns, List.mem_cons, List.mem_singleton,
      List.not_mem_nil, or_false] at hc
    rcases hc with rfl | rfl | rfl
    · rfl
    · exact absurd hdt (by decide)
    · exact absurd hdt (by decide)
  subst hcbs
  have h1 : nullsAfterCoercion dfC3w "Basic Salary" = 1 := by decide
  rw [h1] at hread
  exact hread

/-- Claim C4: a load with any required column absent fails with a
`SchemaError` naming exactly the missing columns, and it does so before
any amount coercion — the outcome is the same for every choice of row
data. -/
theorem C4_schema_error_names_missing (df : DataFrame)
    (h : missingCols df ≠ []) :
    read_employee_data df = .error (.schemaError (missingCols df)) ∧
    ∀ rows2, read_employee_data { df with rows := rows2 } =
      .error (.schemaError (missingCols df)) := by
  constructor
  · unfold read_employee_data
    rw [if_neg h]
  · intro rows2
    have h2 : missingCols { df with rows := rows2 } = missingCols df := rfl
    unfold read_employee_data
    rw [h2, if_neg h]

/-- Witness for claim C4 at a frame missing the `Allowances` column. -/
theorem C4_witness :
    read_employee_data dfC4 = .error (.schemaError (missingCols dfC4)) :=
  (C4_schema_error_names_missing dfC4 (by decide)).1

/-- Claim C5: when configuration and load succeed, the run never ends
fatally; every record reaches the renderer (failures do not stop the
batch), each record counts as a success or a failure according to its
own outcome alone, and the final summary counts add up to the number of
records. -/
theorem C5_per_record_isolation (env : Env) (deliverOk : Dict → Bool)
    (df df2 : DataFrame) (output_dir : String) (fs0 : Fs)
    (henv : setup_environment env = .ok ())
    (hload : read_employee_data df = .ok df2) :
    (process_payroll env deliverOk df output_dir fs0).2 = none ∧
    (process_payroll env deliverOk df output_dir fs0).1.successes =
      (df2.rows.filter
        (fun r => recordSucceeds deliverOk output_dir df2.cols r)).length ∧
    (process_payroll env deliverOk df output_dir fs0).1.failures =
      (df2.rows.filter
        (fun r => !(recordSucceeds deliverOk output_dir df2.cols r))).length ∧
    (process_payroll env deliverOk df output_dir fs0).1.renderAttempts =
      df2.rows.length ∧
    (process_payroll env deliverOk df output_dir fs0).1.successes +
      (process_payroll env deliverOk df output_dir fs0).1.failures =
      df2.rows.length := by
  have hp : process_payroll env deliverOk df output_dir fs0 =
      (df2.rows.foldl (processRecord deliverOk output_dir df2.cols)
        (initialState fs0), none) := by
    unfold process_payroll
    rw [henv, hload]
  obtain ⟨h1, h2, h3⟩ := foldl_processRecord_counts deliverOk output_dir
    df2.cols df2.rows (initialState fs0)
  have hsplit := filter_length_split
    (fun r => recordSucceeds deliverOk output_dir df2.cols r) df2.rows
  simp only [initialState] at h1 h2 h3
  have hs : (process_payroll env deliverOk df output_dir fs0).1.successes =
      (df2.rows.filter
        (fun r => recordSucceeds deliverOk output_dir df2.cols r)).length := by
    rw [hp]; simpa using h1
  have hf : (process_payroll env deliverOk df output_dir fs0).1.failures =
      (df2.rows.filter
        (fun r => !(recordSucceeds deliverOk output_dir df2.cols r))).length := by
    rw [hp]; simpa using h2
  have hr : (process_payroll env deliverOk df output_dir fs0).1.renderAttempts =
      df2.rows.length := by
    rw [hp]; simpa using h3
  refine ⟨by rw [hp], hs, hf, hr, ?_⟩
  rw [hs, hf]
  exact hsplit

/-- Witness for claim C5: a two-record batch in which the second
record's delivery fails (blank email) still processes both records and
reports one success and one failure. -/
theorem C5_witness :
    (process_payroll envAll deliverOkC5 dfC5 "payslips" []).2 = none ∧
    (process_payroll envAll deliverOkC5 dfC5 "payslips" []).1.successes =
      (dfC5.rows.filter
        (fun r => recordSucceeds deliverOkC5 "payslips" dfC5.cols r)).length ∧
    (process_payroll envAll deliverOkC5 dfC5 "payslips" []).1.failures =
      (dfC5.rows.filter
        (fun r => !(recordSucceeds deliverOkC5 "payslips" dfC5.cols r))).length ∧
    (process_payroll envAll deliverOkC5 dfC5 "payslips" []).1.renderAttempts =
      dfC5.rows.length ∧
    (process_payroll envAll deliverOkC5 dfC5 "payslips" []).1.successes +
      (process_payroll envAll deliverOkC5 dfC5 "payslips" []).1.failures =
      dfC5.rows.length :=
  C5_per_record_isolation envAll deliverOkC5 dfC5 dfC5 "payslips" []
    (by decide) (by decide)

/-- Claim C6: the claim says the canonical end-to-end input (3 valid
records plus 1 with a blank email) yields 3 successes, 1 failure, and
three files. The code instead fails all four records — every render
raises `KeyError` on the absent `Net Salary` key before the document is
saved — reporting 0 successes, 4 failures, and an empty output
directory, even with a delivery oracle that always succeeds. -/
theorem C6_end_to_end_four_failures :
    process_payroll envAll (fun _ => true) dfC6 "payslips" [] =
      ({ fs := [], renderAttempts := 4, deliveryAttempts := 0,
         successes := 0, failures := 4 }, none) := by
  decide

/-- Counterexample to claim C7 as stated: with only the sender address
and credential set, startup verification does not succeed — it raises,
naming the absent SMTP_SERVER and SMTP_PORT. -/
theorem C7_counterexample :
    setup_environment
        [("SENDER_EMAIL", "payroll@tinprota.example"),
         ("EMAIL_PASSWORD", "secret")] =
      .error ["SMTP_SERVER", "SMTP_PORT"] := by
  decide

/-- Claim C7 (amended): startup verification succeeds exactly when all
four variables (SMTP_SERVER, SMTP_PORT, SENDER_EMAIL, EMAIL_PASSWORD)
are set — host and port are required, not optional. The documented
defaults (smtp.gmail.com, 587) do exist in config.py's `Config`, but
that class is never consulted by the pipeline. -/
theorem C7_amended_all_vars_required (env : Env) :
    (setup_environment env = .ok () ↔
      ∀ v ∈ requiredVars, (getenv env v).isSome = true) ∧
    Config.SMTP_HOST [] = "smtp.gmail.com" ∧
    Config.SMTP_PORT [] = some 587 := by
  refine ⟨?_, rfl, rfl⟩
  unfold setup_environment
  by_cases hm : requiredVars.filter (fun v => (getenv env v).isNone) = []
  · rw [if_pos hm]
    constructor
    · intro _ v hv
      have h2 := (List.filter_eq_nil_iff.mp hm) v hv
      cases hg : getenv env v
      · exact absurd (by simp [hg]) h2
      · simp
    · intro _
      rfl
  · rw [if_neg hm]
    constructor
    · intro h
      exact absurd h (by simp)
    · intro hall
      exfalso
      apply hm
      apply List.filter_eq_nil_iff.mpr
      intro v hv
      have h2 := hall v hv
      cases hg : getenv env v
      · rw [hg] at h2
        simp at h2
      · simp [hg]

/-- Claim C8: a run that ends fatally (missing configuration or load
failure) does so before any record is processed — the output directory
is untouched, no record reaches the renderer or the mailer, and both
summary counts are zero. -/
theorem C8_fatal_aborts_before_records (env : Env) (deliverOk : Dict → Bool)
    (df : DataFrame) (output_dir : String) (fs0 : Fs) (e : FatalError)
    (h : (process_payroll env deliverOk df output_dir fs0).2 = some e) :
    (process_payroll env deliverOk df output_dir fs0).1.fs = fs0 ∧
    (process_payroll env deliverOk df output_dir fs0).1.renderAttempts = 0 ∧
    (process_payroll env deliverOk df output_dir fs0).1.deliveryAttempts = 0 ∧
    (process_payroll env deliverOk df output_dir fs0).1.successes = 0 ∧
    (process_payroll env deliverOk df output_dir fs0).1.failures = 0 := by
  unfold process_payroll at h ⊢
  cases hs : setup_environment env with
  | error m => exact ⟨rfl, rfl, rfl, rfl, rfl⟩
  | ok u =>
      rw [hs] at h
      cases hr : read_employee_data df with
      | error le => exact ⟨rfl, rfl, rfl, rfl, rfl⟩
      | ok df2 =>
          rw [hr] at h
          exact Option.noConfusion h

/-- Witness for claim C8: an empty environment aborts the run with no
file written and no record processed. -/
theorem C8_witness :
    (process_payroll [] (fun _ => true) dfC6 "payslips" []).1.fs = [] ∧
    (process_payroll [] (fun _ => true) dfC6 "payslips" []).1.renderAttempts = 0 ∧
    (process_payroll [] (fun _ => true) dfC6 "payslips" []).1.deliveryAttempts = 0 ∧
    (process_payroll [] (fun _ => true) dfC6 "payslips" []).1.successes = 0 ∧
    (process_payroll [] (fun _ => true) dfC6 "payslips" []).1.failures = 0 :=
  C8_fatal_aborts_before_records [] (fun _ => true) dfC6 "payslips" []
    (.configError requiredVars) (by decide)

/-- Claim C9: the rendered content is a function of the record alone,
the output path is `<output_dir>/<employee_id>.pdf`, and re-rendering
writes to the same path: writing the document twice leaves the
directory exactly as writing it once, with that content at that path. -/
theorem C9_render_deterministic_overwrite (d : Dict) (output_dir : String)
    (eid : Cell) (p : String) (content : RenderedContent) (fs : Fs)
    (heid : dictGet d "Employee ID" = some eid)
    (h : generate_payslip_with_design d output_dir = some (p, content)) :
    p = output_dir ++ "/" ++ cellToStr eid ++ ".pdf" ∧
    writeFile (writeFile fs p content) p content = writeFile fs p content ∧
    lookupFile (writeFile fs p content) p = some content := by
  unfold generate_payslip_with_design at h
  rw [heid] at h
  cases hr : renderContentOf d with
  | none =>
      rw [hr] at h
      simp at h
  | some c0 =>
      rw [hr] at h
      simp only [Option.some.injEq, Prod.mk.injEq] at h
      obtain ⟨hp2, hc2⟩ := h
      subst hp2
      subst hc2
      exact ⟨rfl, writeFile_writeFile _ _ _, lookupFile_writeFile _ _ _⟩

/-- Witness for claim C9 at a concrete record and an empty directory. -/
theorem C9_witness :
    "out/E9.pdf" = "out" ++ "/" ++ cellToStr (.str "E9") ++ ".pdf" ∧
    writeFile (writeFile [] "out/E9.pdf" contentC9) "out/E9.pdf" contentC9 =
      writeFile [] "out/E9.pdf" contentC9 ∧
    lookupFile (writeFile [] "out/E9.pdf" contentC9) "out/E9.pdf" =
      some contentC9 :=
  C9_render_deterministic_overwrite dC9 "out" (.str "E9") "out/E9.pdf"
    contentC9 [] (by rfl) (by decide)

/-- Claim C10: when every amount column already has numeric dtype the
loader validates nothing — the frame is returned unchanged, so null/NaN
amounts (blank cells) pass the load and flow into the per-record
pipeline. -/
theorem C10_numeric_dtype_skips_validation (df : DataFrame)
    (hm : missingCols df = [])
    (hnum : ∀ c ∈ amountColumns, isNumericDtype (getCol df c) = true) :
    read_employee_data df = .ok df := by
  rw [read_employee_data_chain df hm,
    validateCol_numeric "Basic Salary" df (hnum "Basic Salary" (by decide)),
    except_ok_bind,
    validateCol_numeric "Allowances" df (hnum "Allowances" (by decide)),
    except_ok_bind,
    validateCol_numeric "Deductions" df (hnum "Deductions" (by decide))]

/-- Witness for claim C10: a frame whose `Basic Salary` column holds a
blank (NaN) cell loads unchanged, with no `DataValidationError`. -/
theorem C10_witness :
    read_employee_data dfC10 = .ok dfC10 :=
  C10_numeric_dtype_skips_validation dfC10 (by decide) (by decide)
